import Mathlib

/-!
Verification of the derived-state logic of the Prometheus Gym Suite:
the member activity-status lifecycle, coach client-count recomputation,
visit recording, payment aggregation and the dashboard overview
composition.  The definitions below are shallow embeddings of

  * supabase-schema.sql (trigger functions and stored procedures),
  * src/services/dashboard.ts (dashboardService.getOverview),
  * the payments service (paymentsService.getStats / getRevenueByMonth),
  * the members service (membersService.checkIn),
  * the sessions service (sessionsService.removeParticipant).

Time is modelled in seconds: an SQL TIMESTAMPTZ and the numeric value of
a JS Date are integers, `secondsPerDay` converts the SQL INTERVAL
'n days'.  Values the code obtains from the ambient clock (NOW(), the
start-of-month / today / tomorrow instants the services compute before
filtering) enter the embedding as explicit parameters.
-/

namespace Gym

/-- The SQL INTERVAL 'n days' in seconds. -/
def secondsPerDay : Int := 86400

/-- `CREATE TYPE activity_status AS ENUM ('active', 'moderate', 'inactive')`. -/
inductive ActivityStatus
  | active
  | moderate
  | inactive
deriving DecidableEq, Repr

/-- `CREATE TYPE payment_status AS ENUM ('paid', 'pending', 'overdue')`. -/
inductive PaymentStatus
  | paid
  | pending
  | overdue
deriving DecidableEq, Repr

/-- `CREATE TYPE session_status AS ENUM ('scheduled', 'completed', 'cancelled', 'no_show')`. -/
inductive SessionStatus
  | scheduled
  | completed
  | cancelled
  | no_show
deriving DecidableEq, Repr

/-- A row of the `members` table (the columns the verified logic touches). -/
structure Member where
  id : Nat
  gym_id : Nat
  coach_id : Option Nat
  membership_type : String
  monthly_fee : Int
  activity_status : ActivityStatus
  last_visit : Option Int
  total_visits : Int
deriving DecidableEq, Repr

/-- A row of the `coaches` table (the columns the verified logic touches). -/
structure Coach where
  id : Nat
  gym_id : Nat
  is_active : Bool
  client_count : Int
deriving DecidableEq, Repr

/-- A row of the `member_visits` table. -/
structure Visit where
  member_id : Nat
  gym_id : Nat
  check_in : Int
deriving DecidableEq, Repr

/-- The CASE expression of `update_member_activity_status` applied to one
`last_visit` value.  In SQL a comparison whose operand is NULL is not TRUE,
so a NULL `last_visit` falls through both WHEN branches to the ELSE. -/
def classifyActivity (now : Int) (last_visit : Option Int) : ActivityStatus :=
  match last_visit with
  | none => ActivityStatus.inactive
  | some v =>
    if now - 7 * secondsPerDay ≤ v then ActivityStatus.active
    else if now - 30 * secondsPerDay ≤ v then ActivityStatus.moderate
    else ActivityStatus.inactive

/-- The effect of trigger function `update_member_activity_status` on one row
of `members`: the UPDATE carries `WHERE id = NEW.member_id`, so only the row
whose `id` equals the inserted visit's `member_id` is touched, and only its
`activity_status` column is set. -/
def activityTriggerRow (now : Int) (visit : Visit) (m : Member) : Member :=
  if m.id = visit.member_id then
    { m with activity_status := classifyActivity now m.last_visit }
  else m

/-- Trigger `update_activity_on_visit` (AFTER INSERT ON member_visits): the
UPDATE of `update_member_activity_status` applied to the whole `members`
table. -/
def update_member_activity_status (now : Int) (visit : Visit) (members : List Member) :
    List Member :=
  members.map (activityTriggerRow now visit)

/-- The stored procedure `increment_visits(member_uuid UUID)` applied to one
member row: adds 1 to `total_visits`, sets `last_visit` to NOW(), and returns
the new count. -/
def increment_visits (now : Int) (m : Member) : Member × Int :=
  let m_next := { m with total_visits := m.total_visits + 1, last_visit := some now }
  (m_next, m_next.total_visits)

/-- The parameter name `increment_visits` is declared with in the schema. -/
def incrementVisitsParamName : String := "member_uuid"

/-- Dispatch of a PostgREST rpc call to `increment_visits`: the call resolves
only when the caller's named argument matches the declared parameter name
`member_uuid`; with any other argument name no matching function exists and
the call errors (`none`). -/
def rpcIncrementVisits (argName : String) (now : Int) (m : Member) :
    Option (Member × Int) :=
  if argName = incrementVisitsParamName then some (increment_visits now m) else none

/-- The named argument `membersService.checkIn` passes to the rpc. -/
def checkInRpcArgName : String := "member_id"

/-- State touched by `membersService.checkIn`: the member row being checked in
and the `member_visits` rows. -/
structure CheckInState where
  member : Member
  visits : List Visit
deriving DecidableEq, Repr

/-- `membersService.checkIn`: inserts one `member_visits` row with
`check_in = now`; the AFTER INSERT trigger reclassifies that member from its
stored `last_visit`; then the client issues an UPDATE on `members` whose
`total_visits` value is the result of the rpc call to `increment_visits`
with the single named argument `member_id` — the argument name does
not match the declared parameter `member_uuid`, the rpc does not resolve, the
UPDATE fails, and its error is never checked, so the member row keeps its old
`last_visit` and `total_visits`. -/
def checkIn (now : Int) (s : CheckInState) : CheckInState :=
  let visitRow : Visit := ⟨s.member.id, s.member.gym_id, now⟩
  let m1 := activityTriggerRow now visitRow s.member
  let m2 :=
    match rpcIncrementVisits checkInRpcArgName now m1 with
    | some (_, n) => { m1 with last_visit := some now, total_visits := n }
    | none => m1
  ⟨m2, s.visits ++ [visitRow]⟩

/-- Which statement fired the `members` trigger (`TG_OP`). -/
inductive TgOp
  | ins
  | upd
  | del
deriving DecidableEq, Repr

/-- SQL `a != b` on nullable operands `IS TRUE`: a comparison with a NULL
operand yields NULL, which an IF treats like FALSE, so the test is TRUE only
when both operands are non-null and differ. -/
def sqlNeq (a b : Option Nat) : Bool :=
  match a, b with
  | some x, some y => decide (x ≠ y)
  | _, _ => false

/-- `SELECT COUNT(*) FROM members WHERE coach_id = cid`. -/
def countClients (members : List Member) (cid : Nat) : Int :=
  ((members.filter fun m => decide (m.coach_id = some cid)).length : Int)

/-- `UPDATE coaches SET client_count = n WHERE id = cid`. -/
def setClientCount (coaches : List Coach) (cid : Nat) (n : Int) : List Coach :=
  coaches.map fun c => if c.id = cid then { c with client_count := n } else c

/-- Every `coaches` row with id `cid` stores `client_count = n`. -/
abbrev hasCount (coaches : List Coach) (cid : Nat) (n : Int) : Prop :=
  ∀ c ∈ coaches, c.id = cid → c.client_count = n

/-- Trigger function `update_coach_client_count` (AFTER INSERT OR UPDATE OR
DELETE ON members, FOR EACH ROW).  `oldCoach` / `newCoach` are
`OLD.coach_id` / `NEW.coach_id`; `members` is the table as the AFTER trigger
sees it, i.e. with the row write already applied.  The reassignment guard is
the SQL condition `TG_OP = 'UPDATE' AND OLD.coach_id IS NOT NULL AND
OLD.coach_id != NEW.coach_id`, with `!=` under SQL null semantics
(`sqlNeq`). -/
def update_coach_client_count (op : TgOp) (oldCoach newCoach : Option Nat)
    (members : List Member) (coaches : List Coach) : List Coach :=
  if op = TgOp.ins ∨ op = TgOp.upd then
    let coaches1 :=
      match newCoach with
      | some n => setClientCount coaches n (countClients members n)
      | none => coaches
    if op = TgOp.upd ∧ oldCoach.isSome = true ∧ sqlNeq oldCoach newCoach = true then
      match oldCoach with
      | some o => setClientCount coaches1 o (countClients members o)
      | none => coaches1
    else coaches1
  else
    match oldCoach with
    | some o => setClientCount coaches o (countClients members o)
    | none => coaches

/-- A JS `Date` value: the numeric instant (what `<` and `>=` compare) plus
the calendar accessors `getFullYear()` and `getMonth()` (0-based) that the
month bucketing reads. -/
structure Time where
  epoch : Int
  year : Int
  month0 : Nat
deriving DecidableEq, Repr

/-- A `members` row as selected by `getOverview`
(`id, activity_status, membership_type, monthly_fee`). -/
structure MemberRow where
  id : Nat
  activity_status : ActivityStatus
  membership_type : String
  monthly_fee : Option Int
deriving DecidableEq, Repr

/-- A `coaches` row as selected by `getOverview` (`id, is_active, client_count`). -/
structure CoachRow where
  id : Nat
  is_active : Bool
  client_count : Int
deriving DecidableEq, Repr

/-- A `payments` row as selected by `getOverview` and `getStats`
(`amount, status, paid_date`). -/
structure PaymentRow where
  amount : Int
  status : PaymentStatus
  paid_date : Option Time
deriving DecidableEq, Repr

/-- A `sessions` row as selected by `getOverview` (`id, status, start_time`). -/
structure SessionRow where
  id : Nat
  status : SessionStatus
  start_time : Time
deriving DecidableEq, Repr

/-- An `alerts` row; `getOverview` passes these through unchanged. -/
structure AlertRow where
  id : Nat
  is_read : Bool
deriving DecidableEq, Repr

/-- The value a supabase query resolves with: `data` is null exactly when the
read failed, in which case `error` is set.  The query builder never rejects,
so `Promise.all` always resolves with five such records. -/
structure SbResult (α : Type) where
  data : Option (List α)
  error : Option String
deriving DecidableEq, Repr

/-- The snapshot record `getOverview` returns. -/
structure Overview where
  totalMembers : Nat
  activeMembers : Nat
  moderateMembers : Nat
  inactiveMembers : Nat
  totalCoaches : Nat
  activeCoaches : Nat
  mrr : Int
  revenueThisMonth : Int
  pendingPayments : Nat
  overduePayments : Nat
  overdueAmount : Int
  todaySessionsCount : Nat
  totalSessions : Nat
  alerts : List AlertRow
deriving DecidableEq, Repr

/-- The filter `getOverview` and `getStats` apply for this month's revenue:
`p.status === 'paid' && p.paid_date && new Date(p.paid_date) >= startOfMonth`.
Note there is no upper bound on `paid_date`. -/
def paidSinceStartOfMonth (startOfMonth : Time) (p : PaymentRow) : Bool :=
  decide (p.status = PaymentStatus.paid) &&
    (match p.paid_date with
     | some d => decide (startOfMonth.epoch ≤ d.epoch)
     | none => false)

/-- `dashboardService.getOverview`, from the resolution of the five parallel
reads onward.  `startOfMonth`, `today` and `tomorrow` are the clock-derived
instants the function computes before filtering.  The code never inspects the
`error` of any read; each `data` is defaulted with `|| []`. -/
def getOverview (startOfMonth today tomorrow : Time)
    (members : SbResult MemberRow) (coaches : SbResult CoachRow)
    (payments : SbResult PaymentRow) (sessions : SbResult SessionRow)
    (alerts : SbResult AlertRow) : Overview :=
  let membersData := members.data.getD []
  let coachesData := coaches.data.getD []
  let paymentsData := payments.data.getD []
  let sessionsData := sessions.data.getD []
  let mrr := membersData.foldl (fun s m => s + m.monthly_fee.getD 0) 0
  let revenueThisMonth :=
    (paymentsData.filter (paidSinceStartOfMonth startOfMonth)).foldl
      (fun s p => s + p.amount) 0
  let todaySessions := sessionsData.filter fun s =>
    decide (today.epoch ≤ s.start_time.epoch) && decide (s.start_time.epoch < tomorrow.epoch)
  { totalMembers := membersData.length
    activeMembers :=
      (membersData.filter fun m => decide (m.activity_status = ActivityStatus.active)).length
    moderateMembers :=
      (membersData.filter fun m => decide (m.activity_status = ActivityStatus.moderate)).length
    inactiveMembers :=
      (membersData.filter fun m => decide (m.activity_status = ActivityStatus.inactive)).length
    totalCoaches := coachesData.length
    activeCoaches := (coachesData.filter fun c => c.is_active).length
    mrr := mrr
    revenueThisMonth := revenueThisMonth
    pendingPayments :=
      (paymentsData.filter fun p => decide (p.status = PaymentStatus.pending)).length
    overduePayments :=
      (paymentsData.filter fun p => decide (p.status = PaymentStatus.overdue)).length
    overdueAmount :=
      (paymentsData.filter fun p => decide (p.status = PaymentStatus.overdue)).foldl
        (fun s p => s + p.amount) 0
    todaySessionsCount := todaySessions.length
    totalSessions := sessionsData.length
    alerts := alerts.data.getD [] }

/-- The record `paymentsService.getStats` returns. -/
structure PaymentStats where
  revenueThisMonth : Int
  pendingAmount : Int
  overdueAmount : Int
  totalPaid : Int
deriving DecidableEq, Repr

/-- `paymentsService.getStats`, from the fetched rows onward (`startOfMonth`
is the clock-derived first-of-month instant it computes first). -/
def getStats (startOfMonth : Time) (allPayments : List PaymentRow) : PaymentStats :=
  { revenueThisMonth :=
      (allPayments.filter (paidSinceStartOfMonth startOfMonth)).foldl
        (fun s p => s + p.amount) 0
    pendingAmount :=
      (allPayments.filter fun p => decide (p.status = PaymentStatus.pending)).foldl
        (fun s p => s + p.amount) 0
    overdueAmount :=
      (allPayments.filter fun p => decide (p.status = PaymentStatus.overdue)).foldl
        (fun s p => s + p.amount) 0
    totalPaid :=
      (allPayments.filter fun p => decide (p.status = PaymentStatus.paid)).foldl
        (fun s p => s + p.amount) 0 }

/-- `String(n).padStart(2, '0')`. -/
def pad2 (n : Nat) : String :=
  let s := toString n
  if s.length < 2 then "0" ++ s else s

/-- The bucket key of `getRevenueByMonth`:
the string `getFullYear() ++ "-" ++ padded (getMonth() + 1)`. -/
def monthKey (d : Time) : String :=
  toString d.year ++ "-" ++ pad2 (d.month0 + 1)

/-- `revenueByMonth[key] = (revenueByMonth[key] || 0) + amount` on a JS object
modelled as an association list in key-insertion order: an existing key is
updated in place, a new key is appended. -/
def bumpKey (m : List (String × Int)) (k : String) (a : Int) : List (String × Int) :=
  match m with
  | [] => [(k, a)]
  | (k2, v) :: rest => if k2 = k then (k2, v + a) :: rest else (k2, v) :: bumpKey rest k a

/-- The server-side filters of `getRevenueByMonth`:
`.eq('status', 'paid').gte('paid_date', startDate)`.  The SQL comparison with
a NULL `paid_date` is not TRUE, so rows with a null paid date are not
fetched. -/
def fetchedPaidRow (startDate : Time) (p : PaymentRow) : Bool :=
  decide (p.status = PaymentStatus.paid) &&
    (match p.paid_date with
     | some d => decide (startDate.epoch ≤ d.epoch)
     | none => false)

/-- The client-side grouping loop of `getRevenueByMonth`: rows with a null
`paid_date` are skipped (`if (payment.paid_date)`), the rest are added to
the bucket keyed by `monthKey`. -/
def groupRevenue (rows : List PaymentRow) : List (String × Int) :=
  rows.foldl
    (fun acc payment =>
      match payment.paid_date with
      | some d => bumpKey acc (monthKey d) payment.amount
      | none => acc) []

/-- `paymentsService.getRevenueByMonth` from the fetched rows onward.  The
query's ORDER BY paid_date only fixes the iteration order of the grouping
(hence the key insertion order); the bucket contents are order-independent
and the properties verified here do not mention the order, so the embedding
keeps the fetched row order. -/
def getRevenueByMonth (startDate : Time) (table : List PaymentRow) : List (String × Int) :=
  groupRevenue (table.filter (fetchedPaidRow startDate))

/-- A `sessions` row as touched by the participant-counter procedures. -/
structure SessionRec where
  id : Nat
  current_participants : Int
deriving DecidableEq, Repr

/-- One row under `increment_session_participants(session_uuid UUID)`:
`current_participants = current_participants + 1` where `id = session_uuid`. -/
def incParticipantsRow (uuid : Nat) (s : SessionRec) : SessionRec :=
  if s.id = uuid then
    { s with current_participants := s.current_participants + 1 }
  else s

/-- One row under `decrement_session_participants(session_uuid UUID)`:
`current_participants = GREATEST(0, current_participants - 1)` where
`id = session_uuid`. -/
def decParticipantsRow (uuid : Nat) (s : SessionRec) : SessionRec :=
  if s.id = uuid then
    { s with current_participants := max 0 (s.current_participants - 1) }
  else s

/-- `increment_session_participants` over the `sessions` table. -/
def increment_session_participants (sessions : List SessionRec) (uuid : Nat) :
    List SessionRec :=
  sessions.map (incParticipantsRow uuid)

/-- `decrement_session_participants` over the `sessions` table. -/
def decrement_session_participants (sessions : List SessionRec) (uuid : Nat) :
    List SessionRec :=
  sessions.map (decParticipantsRow uuid)

/-- Stated from the spec's words, for comparison with the code: MRR as the
sum of the monthly fees of the members whose `activity_status` is
`active`. -/
def mrrSpecActiveOnly (ms : List MemberRow) : Int :=
  ((ms.filter fun m => decide (m.activity_status = ActivityStatus.active)).map
    (fun m => m.monthly_fee.getD 0)).sum

/-- Stated from the spec's words, for comparison with the code: the sum of
`amount` over payments with `status = paid` and `paid_date` in the half-open
interval from the first of the current month to now. -/
def revenueThisMonthSpec (startOfMonth now : Time) (rows : List PaymentRow) : Int :=
  ((rows.filter fun p =>
      decide (p.status = PaymentStatus.paid) &&
        (match p.paid_date with
         | some d => decide (startOfMonth.epoch ≤ d.epoch) && decide (d.epoch < now.epoch)
         | none => false)).map PaymentRow.amount).sum

/-- **C1.** The activity-status classification of `update_member_activity_status`
is `active` iff `now − last_visit ≤ 7` days, `moderate` iff `7` days
`< now − last_visit ≤ 30` days, and `inactive` otherwise or when
`last_visit` is null. -/
theorem classifyActivity_spec (now : Int) (v : Option Int) :
    (classifyActivity now v = ActivityStatus.active ↔
      ∃ t, v = some t ∧ now - t ≤ 7 * secondsPerDay) ∧
    (classifyActivity now v = ActivityStatus.moderate ↔
      ∃ t, v = some t ∧ 7 * secondsPerDay < now - t ∧ now - t ≤ 30 * secondsPerDay) ∧
    (classifyActivity now v = ActivityStatus.inactive ↔
      (v = none ∨ ∃ t, v = some t ∧ 30 * secondsPerDay < now - t)) := by
  unfold classifyActivity secondsPerDay
  match v with
  | none => simp
  | some t =>
    dsimp only
    by_cases h1 : now - 7 * 86400 ≤ t
    · rw [if_pos h1]
      refine ⟨?_, ?_, ?_⟩ <;> simp <;> omega
    · rw [if_neg h1]
      by_cases h2 : now - 30 * 86400 ≤ t
      · rw [if_pos h2]
        refine ⟨?_, ?_, ?_⟩ <;> simp <;> omega
      · rw [if_neg h2]
        refine ⟨?_, ?_, ?_⟩ <;> simp <;> omega

/-- **C9.** Inserting a visit row for member M recomputes the activity status
of M only: the trigger is a row-wise map, a row whose id differs from the
visit's member id is completely unchanged, and the matching row changes only
its `activity_status` field. -/
theorem visit_trigger_frame (now : Int) (visit : Visit) (members : List Member) :
    update_member_activity_status now visit members =
      members.map (activityTriggerRow now visit) ∧
    (∀ m : Member, m.id ≠ visit.member_id → activityTriggerRow now visit m = m) ∧
    (∀ m : Member, m.id = visit.member_id →
      activityTriggerRow now visit m =
        { m with activity_status := classifyActivity now m.last_visit }) := by
  refine ⟨rfl, ?_, ?_⟩
  · intro m hm
    unfold activityTriggerRow
    rw [if_neg hm]
  · intro m hm
    unfold activityTriggerRow
    rw [if_pos hm]

/-- Witness for C9 at a concrete member and visit with distinct ids. -/
theorem visit_trigger_frame_witness :
    activityTriggerRow 1000 ⟨1, 1, 1000⟩
        ⟨2, 1, none, "basic", 50, ActivityStatus.active, some 900, 3⟩ =
      ⟨2, 1, none, "basic", 50, ActivityStatus.active, some 900, 3⟩ :=
  (visit_trigger_frame 1000 ⟨1, 1, 1000⟩ []).2.1
    ⟨2, 1, none, "basic", 50, ActivityStatus.active, some 900, 3⟩ (by decide)

/-- **C3 (code bug).** Evaluating `checkIn` at a member with 5 recorded
visits: exactly one visit row with the current timestamp is appended, but
`total_visits` stays 5 and `last_visit` is unchanged — the rpc argument name
`member_id` does not match the schema's parameter `member_uuid`, so the
member UPDATE fails (unchecked); only the trigger's reclassification of
`activity_status` happens. -/
theorem checkIn_leaves_total_visits_unchanged :
    checkIn 5000000 ⟨⟨7, 1, none, "basic", 50, ActivityStatus.active, some 100, 5⟩, []⟩ =
      ⟨⟨7, 1, none, "basic", 50, ActivityStatus.inactive, some 100, 5⟩,
        [⟨7, 1, 5000000⟩]⟩ := by
  decide

theorem hasCount_setClientCount_self (coaches : List Coach) (cid : Nat) (n : Int) :
    hasCount (setClientCount coaches cid n) cid n := by
  intro c hc hid
  unfold setClientCount at hc
  obtain ⟨c0, _, hc0⟩ := List.mem_map.mp hc
  by_cases h0 : c0.id = cid
  · rw [if_pos h0] at hc0
    rw [← hc0]
  · rw [if_neg h0] at hc0
    rw [← hc0] at hid
    exact absurd hid h0

theorem hasCount_setClientCount_other (coaches : List Coach) (cid other : Nat)
    (n k : Int) (hne : other ≠ cid) (h : hasCount coaches other k) :
    hasCount (setClientCount coaches cid n) other k := by
  intro c hc hid
  unfold setClientCount at hc
  obtain ⟨c0, hmem, hc0⟩ := List.mem_map.mp hc
  by_cases h0 : c0.id = cid
  · rw [if_pos h0] at hc0
    rw [← hc0] at hid
    simp only [] at hid
    rw [hid] at h0
    exact absurd h0 hne
  · rw [if_neg h0] at hc0
    rw [← hc0]
    exact h c0 hmem (by rw [hc0]; exact hid)

theorem trigger_ins_eq (members : List Member) (coaches : List Coach) (n : Nat) :
    update_coach_client_count TgOp.ins none (some n) members coaches =
      setClientCount coaches n (countClients members n) := by
  simp [update_coach_client_count, sqlNeq]

theorem trigger_del_eq (members : List Member) (coaches : List Coach) (o : Nat) :
    update_coach_client_count TgOp.del (some o) none members coaches =
      setClientCount coaches o (countClients members o) := by
  simp [update_coach_client_count]

theorem trigger_upd_fromNull_eq (members : List Member) (coaches : List Coach) (b : Nat) :
    update_coach_client_count TgOp.upd none (some b) members coaches =
      setClientCount coaches b (countClients members b) := by
  simp [update_coach_client_count, sqlNeq]

theorem trigger_upd_same_eq (members : List Member) (coaches : List Coach) (b : Nat) :
    update_coach_client_count TgOp.upd (some b) (some b) members coaches =
      setClientCount coaches b (countClients members b) := by
  simp [update_coach_client_count, sqlNeq]

theorem trigger_upd_reassign_eq (members : List Member) (coaches : List Coach)
    (a b : Nat) (hab : a ≠ b) :
    update_coach_client_count TgOp.upd (some a) (some b) members coaches =
      setClientCount (setClientCount coaches b (countClients members b)) a
        (countClients members a) := by
  simp [update_coach_client_count, sqlNeq, hab]

theorem trigger_upd_toNull_eq (members : List Member) (coaches : List Coach)
    (oldCoach : Option Nat) :
    update_coach_client_count TgOp.upd oldCoach none members coaches = coaches := by
  match oldCoach with
  | none => simp [update_coach_client_count, sqlNeq]
  | some a => simp [update_coach_client_count, sqlNeq]

theorem countClients_append (l1 l2 : List Member) (cid : Nat) :
    countClients (l1 ++ l2) cid = countClients l1 cid + countClients l2 cid := by
  unfold countClients
  rw [List.filter_append, List.length_append]
  push_cast
  ring

theorem countClients_cons (m : Member) (l : List Member) (cid : Nat) :
    countClients (m :: l) cid =
      (if m.coach_id = some cid then 1 else 0) + countClients l cid := by
  unfold countClients
  rw [List.filter_cons]
  by_cases h : m.coach_id = some cid
  · simp [h]
    omega
  · simp [h]

/-- **C5 (counterexample).** Unassigning a member (UPDATE setting `coach_id`
from coach 1 to NULL): the trigger guard `OLD.coach_id != NEW.coach_id` is
NULL, not TRUE, so the old coach is not recomputed — the trigger returns the
coaches table unchanged, coach 1 still stores `client_count = 1` although no
member references it any more. -/
theorem coach_count_unassign_stale :
    update_coach_client_count TgOp.upd (some 1) none
        [⟨10, 1, none, "basic", 50, ActivityStatus.active, none, 0⟩]
        [⟨1, 1, true, 1⟩] = [⟨1, 1, true, 1⟩] ∧
    countClients [⟨10, 1, none, "basic", 50, ActivityStatus.active, none, 0⟩] 1 = 0 := by
  constructor
  · rfl
  · rfl

/-- **C5 (amended).** After an insert, a delete, or an update whose new
`coach_id` is non-null, every coach whose assignment set changed stores
`client_count` equal to the count of members currently referencing it: the
new coach on insert, the old coach on delete, and on reassignment both the
new coach and (when distinct) the old coach.  (The amendment excludes
updates that set `coach_id` to NULL: there the SQL null semantics of the
guard skip the old coach's recomputation, see the counterexample.) -/
theorem update_coach_client_count_recount (members : List Member) (coaches : List Coach) :
    (∀ n : Nat,
      hasCount (update_coach_client_count TgOp.ins none (some n) members coaches)
        n (countClients members n)) ∧
    (∀ o : Nat,
      hasCount (update_coach_client_count TgOp.del (some o) none members coaches)
        o (countClients members o)) ∧
    (∀ (oldCoach : Option Nat) (b : Nat),
      hasCount (update_coach_client_count TgOp.upd oldCoach (some b) members coaches)
        b (countClients members b) ∧
      (∀ a : Nat, oldCoach = some a → a ≠ b →
        hasCount (update_coach_client_count TgOp.upd oldCoach (some b) members coaches)
          a (countClients members a))) := by
  refine ⟨?_, ?_, ?_⟩
  · intro n
    rw [trigger_ins_eq]
    exact hasCount_setClientCount_self coaches n (countClients members n)
  · intro o
    rw [trigger_del_eq]
    exact hasCount_setClientCount_self coaches o (countClients members o)
  · intro oldCoach b
    match oldCoach with
    | none =>
      constructor
      · rw [trigger_upd_fromNull_eq]
        exact hasCount_setClientCount_self coaches b (countClients members b)
      · intro a ha
        cases ha
    | some a =>
      by_cases hab : a = b
      · subst hab
        constructor
        · rw [trigger_upd_same_eq]
          exact hasCount_setClientCount_self coaches a (countClients members a)
        · intro a2 ha2 hne
          rw [Option.some.injEq] at ha2
          exact absurd ha2.symm hne
      · constructor
        · rw [trigger_upd_reassign_eq members coaches a b hab]
          exact hasCount_setClientCount_other _ _ _ _ _ (Ne.symm hab)
            (hasCount_setClientCount_self coaches b (countClients members b))
        · intro a2 ha2 hne
          rw [Option.some.injEq] at ha2
          subst ha2
          rw [trigger_upd_reassign_eq members coaches _ b hne]
          exact hasCount_setClientCount_self _ _ _

/-- Witness for C5 at a concrete reassignment from coach 1 to coach 2. -/
theorem update_coach_client_count_recount_witness :
    hasCount
      (update_coach_client_count TgOp.upd (some 1) (some 2)
        [⟨10, 1, some 2, "basic", 50, ActivityStatus.active, none, 0⟩]
        [⟨1, 1, true, 1⟩, ⟨2, 1, true, 0⟩])
      1 (countClients [⟨10, 1, some 2, "basic", 50, ActivityStatus.active, none, 0⟩] 1) :=
  ((update_coach_client_count_recount
      [⟨10, 1, some 2, "basic", 50, ActivityStatus.active, none, 0⟩]
      [⟨1, 1, true, 1⟩, ⟨2, 1, true, 0⟩]).2.2 (some 1) 2).2 1 rfl (by decide)

/-- **C6.** Reassigning member M from coach A to coach B (A ≠ B, no
concurrent writes, stored counts accurate before the update): after the
row update and its trigger, every row of coach A stores `client_count`
equal to its old value minus 1 and every row of coach B its old value
plus 1. -/
theorem coach_reassignment_shifts_counts (pre post : List Member) (oldm : Member)
    (a b : Nat) (coaches : List Coach) (ka kb : Int)
    (hab : a ≠ b)
    (hold : oldm.coach_id = some a)
    (hkaStored : hasCount coaches a ka)
    (hkbStored : hasCount coaches b kb)
    (hka : ka = countClients (pre ++ oldm :: post) a)
    (hkb : kb = countClients (pre ++ oldm :: post) b) :
    hasCount (update_coach_client_count TgOp.upd oldm.coach_id (some b)
        (pre ++ { oldm with coach_id := some b } :: post) coaches) a (ka - 1) ∧
    hasCount (update_coach_client_count TgOp.upd oldm.coach_id (some b)
        (pre ++ { oldm with coach_id := some b } :: post) coaches) b (kb + 1) := by
  have hproj : ({ oldm with coach_id := some b } : Member).coach_id = some b := rfl
  have hba : (some b : Option Nat) ≠ some a := by
    simpa using Ne.symm hab
  have hab2 : (some a : Option Nat) ≠ some b := by
    simpa using hab
  have hca : countClients (pre ++ { oldm with coach_id := some b } :: post) a = ka - 1 := by
    rw [hka, countClients_append, countClients_append, countClients_cons, countClients_cons,
      hproj, hold, if_pos rfl, if_neg hba]
    omega
  have hcb : countClients (pre ++ { oldm with coach_id := some b } :: post) b = kb + 1 := by
    rw [hkb, countClients_append, countClients_append, countClients_cons, countClients_cons,
      hproj, hold, if_pos rfl, if_neg hab2]
    omega
  rw [hold, trigger_upd_reassign_eq _ coaches a b hab]
  constructor
  · rw [← hca]
    exact hasCount_setClientCount_self _ a _
  · rw [← hcb]
    exact hasCount_setClientCount_other _ _ _ _ _ (Ne.symm hab)
      (hasCount_setClientCount_self coaches b _)

/-- Witness for C6: member 10 moves from coach 1 (one client) to coach 2
(no clients); afterwards coach 1 stores 0 and coach 2 stores 1. -/
theorem coach_reassignment_shifts_counts_witness :
    hasCount (update_coach_client_count TgOp.upd
        (Member.coach_id ⟨10, 1, some 1, "basic", 50, ActivityStatus.active, none, 0⟩)
        (some 2)
        [⟨10, 1, some 2, "basic", 50, ActivityStatus.active, none, 0⟩]
        [⟨1, 1, true, 1⟩, ⟨2, 1, true, 0⟩]) 1 (1 - 1) ∧
    hasCount (update_coach_client_count TgOp.upd
        (Member.coach_id ⟨10, 1, some 1, "basic", 50, ActivityStatus.active, none, 0⟩)
        (some 2)
        [⟨10, 1, some 2, "basic", 50, ActivityStatus.active, none, 0⟩]
        [⟨1, 1, true, 1⟩, ⟨2, 1, true, 0⟩]) 2 (0 + 1) :=
  coach_reassignment_shifts_counts [] []
    ⟨10, 1, some 1, "basic", 50, ActivityStatus.active, none, 0⟩ 1 2
    [⟨1, 1, true, 1⟩, ⟨2, 1, true, 0⟩] 1 0
    (by decide) rfl (by decide) (by decide) (by decide) (by decide)

theorem foldl_add_map_sum (f : α → Int) (l : List α) (s : Int) :
    l.foldl (fun acc x => acc + f x) s = s + (l.map f).sum := by
  induction l generalizing s with
  | nil => simp
  | cons x xs ih =>
    rw [List.foldl_cons, ih, List.map_cons, List.sum_cons]
    ring

/-- **C2 (counterexample).** The members read fails (null data, an error the
code never inspects) while the other four reads succeed; `getOverview` does
not fail: it returns a partial snapshot built from empty member data and the
successful payments read. -/
theorem getOverview_partial_on_failed_read :
    getOverview ⟨0, 2026, 9⟩ ⟨800, 2026, 9⟩ ⟨1000, 2026, 9⟩
        ⟨none, some "network error"⟩ ⟨some [⟨1, true, 0⟩], none⟩
        ⟨some [⟨100, PaymentStatus.paid, some ⟨50, 2026, 9⟩⟩], none⟩
        ⟨some [], none⟩ ⟨some [], none⟩ =
      { totalMembers := 0
        activeMembers := 0
        moderateMembers := 0
        inactiveMembers := 0
        totalCoaches := 1
        activeCoaches := 1
        mrr := 0
        revenueThisMonth := 100
        pendingPayments := 0
        overduePayments := 0
        overdueAmount := 0
        todaySessionsCount := 0
        totalSessions := 0
        alerts := [] } := by
  decide

/-- **C2 (amended).** `getOverview` never fails: it ignores the `error` field
of every read and treats a failed read (null `data`) exactly like a
successful read of the empty list, returning a snapshot in all cases. -/
theorem getOverview_ignores_read_errors (startOfMonth today tomorrow : Time)
    (members : SbResult MemberRow) (coaches : SbResult CoachRow)
    (payments : SbResult PaymentRow) (sessions : SbResult SessionRow)
    (alerts : SbResult AlertRow) :
    getOverview startOfMonth today tomorrow members coaches payments sessions alerts =
      getOverview startOfMonth today tomorrow
        ⟨some (members.data.getD []), none⟩ ⟨some (coaches.data.getD []), none⟩
        ⟨some (payments.data.getD []), none⟩ ⟨some (sessions.data.getD []), none⟩
        ⟨some (alerts.data.getD []), none⟩ := rfl

/-- **C4 (counterexample).** A gym whose only member is `inactive` with a
monthly fee of 50: `getOverview` reports `mrr = 50`, while the sum of active
members' fees is 0. -/
theorem mrr_counts_inactive_member :
    (getOverview ⟨0, 2026, 9⟩ ⟨800, 2026, 9⟩ ⟨1000, 2026, 9⟩
        ⟨some [⟨1, ActivityStatus.inactive, "basic", some 50⟩], none⟩
        ⟨some [], none⟩ ⟨some [], none⟩ ⟨some [], none⟩ ⟨some [], none⟩).mrr = 50 ∧
    mrrSpecActiveOnly [⟨1, ActivityStatus.inactive, "basic", some 50⟩] = 0 := by
  decide

/-- **C4 (amended).** The `mrr` field of `getOverview` is the sum of the
monthly fees (null fee counted as 0) of ALL of the gym's fetched members,
regardless of their activity status. -/
theorem mrr_sums_all_members (startOfMonth today tomorrow : Time)
    (ms : List MemberRow) (err : Option String) (coaches : SbResult CoachRow)
    (payments : SbResult PaymentRow) (sessions : SbResult SessionRow)
    (alerts : SbResult AlertRow) :
    (getOverview startOfMonth today tomorrow ⟨some ms, err⟩ coaches payments
        sessions alerts).mrr = (ms.map fun m => m.monthly_fee.getD 0).sum := by
  show ms.foldl (fun s m => s + m.monthly_fee.getD 0) 0 = _
  rw [foldl_add_map_sum]
  ring

/-- **C7 (counterexample).** A paid payment dated after "now": the spec's
half-open interval `[startOfMonth, now)` excludes it, but the code has no
upper bound and counts it, so `revenueThisMonth` is 100 where the spec says
0. -/
theorem revenue_counts_future_paid_date :
    (getStats ⟨0, 2026, 9⟩
        [⟨100, PaymentStatus.paid, some ⟨2000000, 2026, 9⟩⟩]).revenueThisMonth = 100 ∧
    revenueThisMonthSpec ⟨0, 2026, 9⟩ ⟨1500000, 2026, 9⟩
        [⟨100, PaymentStatus.paid, some ⟨2000000, 2026, 9⟩⟩] = 0 := by
  decide

/-- **C7 (amended).** Both `paymentsService.getStats` and
`dashboardService.getOverview` compute `revenueThisMonth` as the sum of
`amount` over payments with `status = paid` and non-null
`paid_date ≥ startOfMonth` — a half-line with no upper bound, not the
interval `[startOfMonth, now)`. -/
theorem revenueThisMonth_characterization (startOfMonth today tomorrow : Time)
    (rows : List PaymentRow) (err : Option String)
    (members : SbResult MemberRow) (coaches : SbResult CoachRow)
    (sessions : SbResult SessionRow) (alerts : SbResult AlertRow) :
    (getStats startOfMonth rows).revenueThisMonth =
      ((rows.filter (paidSinceStartOfMonth startOfMonth)).map PaymentRow.amount).sum ∧
    (getOverview startOfMonth today tomorrow members coaches ⟨some rows, err⟩
        sessions alerts).revenueThisMonth =
      ((rows.filter (paidSinceStartOfMonth startOfMonth)).map PaymentRow.amount).sum := by
  constructor
  · show (rows.filter (paidSinceStartOfMonth startOfMonth)).foldl
        (fun s p => s + p.amount) 0 = _
    rw [foldl_add_map_sum]
    ring
  · show (rows.filter (paidSinceStartOfMonth startOfMonth)).foldl
        (fun s p => s + p.amount) 0 = _
    rw [foldl_add_map_sum]
    ring

theorem mem_fst_bumpKey (m : List (String × Int)) (k : String) (a : Int) (s : String)
    (h : s ∈ (bumpKey m k a).map Prod.fst) : s ∈ m.map Prod.fst ∨ s = k := by
  induction m with
  | nil =>
    simp [bumpKey] at h
    exact Or.inr h
  | cons kv rest ih =>
    unfold bumpKey at h
    by_cases hk : kv.1 = k
    · rw [if_pos hk] at h
      simp at h
      rcases h with h | h
      · exact Or.inl (by simp [h])
      · exact Or.inl (by simp [h])
    · rw [if_neg hk] at h
      simp at h
      rcases h with h | h
      · exact Or.inl (by simp [h])
      · rcases ih (by simpa using h) with h2 | h2
        · exact Or.inl (by simp; exact Or.inr (by simpa using h2))
        · exact Or.inr h2

theorem mem_fst_groupRevenue_aux (rows : List PaymentRow) (acc : List (String × Int))
    (s : String)
    (h : s ∈ (rows.foldl
        (fun acc payment =>
          match payment.paid_date with
          | some d => bumpKey acc (monthKey d) payment.amount
          | none => acc) acc).map Prod.fst) :
    s ∈ acc.map Prod.fst ∨ ∃ p ∈ rows, ∃ d, p.paid_date = some d ∧ s = monthKey d := by
  induction rows generalizing acc with
  | nil =>
    exact Or.inl h
  | cons x xs ih =>
    rw [List.foldl_cons] at h
    rcases ih _ h with h2 | h2
    · match hx : x.paid_date with
      | some d =>
        rw [hx] at h2
        rcases mem_fst_bumpKey _ _ _ _ h2 with h3 | h3
        · exact Or.inl h3
        · exact Or.inr ⟨x, by simp, d, hx, h3⟩
      | none =>
        rw [hx] at h2
        exact Or.inl h2
    · obtain ⟨p, hp, d, hd, hs⟩ := h2
      exact Or.inr ⟨p, by simp [hp], d, hd, hs⟩

/-- **C8.** A payment with `status = paid` but null `paid_date` contributes
to no month-bucketed sum: dropping such a row changes neither
`getRevenueByMonth` (the server-side `paid_date >= startDate` filter already
rejects NULL) nor `revenueThisMonth`; and every bucket key of
`getRevenueByMonth` is the `year-paddedMonth` string derived from some
fetched row's `paid_date`. -/
theorem null_paid_date_excluded (startDate startOfMonth : Time)
    (pre post table : List PaymentRow) (a : Int) :
    getRevenueByMonth startDate (pre ++ ⟨a, PaymentStatus.paid, none⟩ :: post) =
      getRevenueByMonth startDate (pre ++ post) ∧
    (getStats startOfMonth (pre ++ ⟨a, PaymentStatus.paid, none⟩ :: post)).revenueThisMonth =
      (getStats startOfMonth (pre ++ post)).revenueThisMonth ∧
    (∀ kv ∈ getRevenueByMonth startDate table,
      ∃ p ∈ table, ∃ d, p.paid_date = some d ∧ kv.1 = monthKey d) := by
  refine ⟨?_, ?_, ?_⟩
  · unfold getRevenueByMonth
    rw [List.filter_append, List.filter_cons, List.filter_append]
    have hrow : fetchedPaidRow startDate ⟨a, PaymentStatus.paid, none⟩ = false := rfl
    rw [hrow]
    simp
  · unfold getStats
    simp only []
    rw [List.filter_append, List.filter_cons, List.filter_append]
    have hrow : paidSinceStartOfMonth startOfMonth ⟨a, PaymentStatus.paid, none⟩ = false := rfl
    rw [hrow]
    simp
  · intro kv hkv
    have hs := mem_fst_groupRevenue_aux (table.filter (fetchedPaidRow startDate)) [] kv.1
      (List.mem_map.mpr ⟨kv, hkv, rfl⟩)
    rcases hs with hs | hs
    · simp at hs
    · obtain ⟨p, hp, d, hd, hkey⟩ := hs
      exact ⟨p, (List.mem_filter.mp hp).1, d, hd, hkey⟩

/-- Witness for C8 at a concrete table with one March 2026 payment: the
single bucket key "2026-03" is derived from that row's paid date. -/
theorem null_paid_date_excluded_witness :
    ∃ p ∈ [(⟨100, PaymentStatus.paid, some ⟨5, 2026, 2⟩⟩ : PaymentRow)],
      ∃ d, p.paid_date = some d ∧
        (("2026-03", (100 : Int)) : String × Int).1 = monthKey d :=
  (null_paid_date_excluded ⟨0, 2026, 0⟩ ⟨0, 2026, 0⟩ [] []
      [⟨100, PaymentStatus.paid, some ⟨5, 2026, 2⟩⟩] 0).2.2
    ("2026-03", (100 : Int)) (by decide)

/-- **C10.** `decrement_session_participants` sets the targeted session's
counter to `GREATEST(0, current_participants - 1)`, so starting from
non-negative counters both `increment_session_participants` and
`decrement_session_participants` keep every counter non-negative (removing a
participant from a session with zero recorded participants leaves the
counter at 0). -/
theorem session_participants_nonneg (sessions : List SessionRec) (uuid : Nat) :
    (∀ s : SessionRec, s.id = uuid →
      (decParticipantsRow uuid s).current_participants =
        max 0 (s.current_participants - 1)) ∧
    ((∀ s ∈ sessions, 0 ≤ s.current_participants) →
      (∀ s ∈ decrement_session_participants sessions uuid, 0 ≤ s.current_participants) ∧
      (∀ s ∈ increment_session_participants sessions uuid, 0 ≤ s.current_participants)) := by
  constructor
  · intro s hs
    unfold decParticipantsRow
    rw [if_pos hs]
  · intro hinv
    constructor
    · intro s hs
      obtain ⟨s0, hmem, hs0⟩ := List.mem_map.mp hs
      rw [← hs0]
      unfold decParticipantsRow
      by_cases h0 : s0.id = uuid
      · rw [if_pos h0]
        exact le_max_left 0 _
      · rw [if_neg h0]
        exact hinv s0 hmem
    · intro s hs
      obtain ⟨s0, hmem, hs0⟩ := List.mem_map.mp hs
      rw [← hs0]
      unfold incParticipantsRow
      by_cases h0 : s0.id = uuid
      · rw [if_pos h0]
        have := hinv s0 hmem
        simp only []
        omega
      · rw [if_neg h0]
        exact hinv s0 hmem

/-- Witness for C10: decrementing a session already at 0 participants leaves
it at 0, and both procedures keep the concrete one-row table
non-negative. -/
theorem session_participants_nonneg_witness :
    (decParticipantsRow 1 ⟨1, 0⟩).current_participants = max 0 (0 - 1) ∧
    (∀ s ∈ decrement_session_participants [⟨1, 0⟩] 1, 0 ≤ s.current_participants) ∧
    (∀ s ∈ increment_session_participants [⟨1, 0⟩] 1, 0 ≤ s.current_participants) :=
  ⟨(session_participants_nonneg [⟨1, 0⟩] 1).1 ⟨1, 0⟩ rfl,
    (session_participants_nonneg [⟨1, 0⟩] 1).2 (by decide)⟩

end Gym
